import Mathlib

/-!
Shallow embedding of the entity-component-system repository: the server ECS
(Entity, components, PhysicsSystem, NetworkSyncSystem) and the client wire
decoder (GameStateDeserializer), translated from the TypeScript sources.
JavaScript numbers are modelled as rationals, JS truthiness guards are made
explicit, and the external physics engine (RAPIER) body operations that the
code treats as opaque are either interpreted as plain field setters
(setTranslation, setLinvel, setAngvel) or passed in as parameters
(applyImpulse, Math.sqrt).
-/

namespace ECS

/-- A 3-dimensional vector with rational coordinates (JS number triple). -/
structure Vec3 where
  x : ℚ
  y : ℚ
  z : ℚ
deriving DecidableEq, Repr

/-- A quaternion (JS number quadruple). -/
structure Quat where
  x : ℚ
  y : ℚ
  z : ℚ
  w : ℚ
deriving DecidableEq, Repr

/-- TransformComponent from TransformComponent.ts. -/
structure TransformComponent where
  position : Vec3
  rotation : Quat
  scale : Vec3
deriving DecidableEq, Repr

/-- Collider record from PhysicsComponent.ts. -/
structure PhysicsCollider where
  ctype : String
  size : Vec3
  offset : Vec3
deriving DecidableEq, Repr

/-- PhysicsComponent from PhysicsComponent.ts. -/
structure PhysicsComponent where
  velocity : Vec3
  acceleration : Vec3
  mass : ℚ
  isStatic : Bool
  useGravity : Bool
  collider : PhysicsCollider
  friction : ℚ
  restitution : ℚ
deriving DecidableEq, Repr

/-- Mesh record from RenderComponent (optional scale mirrors the TS optional field). -/
structure RenderMesh where
  geometry : String
  scale : Option ℚ
deriving DecidableEq, Repr

/-- Material record from RenderComponent (all fields optional in TS). -/
structure RenderMaterial where
  color : Option String
  texture : Option String
  opacity : Option ℚ
deriving DecidableEq, Repr

/-- RenderComponent from RenderComponent.ts. -/
structure RenderComponent where
  mesh : RenderMesh
  material : RenderMaterial
  visible : Bool
deriving DecidableEq, Repr

/-- AuthorityType enum from NetworkComponent.ts: exactly two values. -/
inductive AuthorityType where
  | SERVER
  | CLIENT
deriving DecidableEq, Repr, BEq

/-- ValidatedState record from NetworkComponent.ts. -/
structure ValidatedState where
  position : Vec3
  velocity : Vec3
  timestamp : ℚ
deriving DecidableEq, Repr

/-- An input sample as consumed by NetworkSyncSystem.applyInput: an object with
an optional velocity (JS truthiness: absent or null means no velocity write)
and a jump flag. -/
structure GameInput where
  velocity : Option Vec3
  jump : Bool
deriving DecidableEq, Repr

/-- NetworkComponent from NetworkComponent.ts.  The TS field lastInput has type
any and in the system always holds an input object or null; it is modelled as
an optional input, none standing for the JS-falsy case. -/
structure NetworkComponent where
  networkId : String
  owner : String
  lastUpdate : ℚ
  lastInput : Option GameInput
  authorityType : AuthorityType
  lastProcessedInput : ℚ
  lastValidatedState : Option ValidatedState
deriving DecidableEq, Repr

/-! ### Serialization patches

serialize() returns a plain object with every field present; deserialize(data)
receives an arbitrary patch whose fields may be absent.  An absent field and a
JS-falsy present field are distinguished only where the TS guard is a
truthiness test; patch fields are Options, none meaning absent (or null). -/

/-- Patch shape for TransformComponent.serialize/deserialize. -/
structure TransformPatch where
  position : Option Vec3
  rotation : Option Quat
  scale : Option Vec3
deriving DecidableEq, Repr

def TransformComponent.serialize (c : TransformComponent) : TransformPatch :=
  { position := some c.position
    rotation := some c.rotation
    scale := some c.scale }

/-- TransformComponent.deserialize: each guard is a JS truthiness test on an
object field, true exactly when the field is a present (non-null) object. -/
def TransformComponent.deserialize (c : TransformComponent) (data : TransformPatch) :
    TransformComponent :=
  { position := match data.position with | some p => p | none => c.position
    rotation := match data.rotation with | some r => r | none => c.rotation
    scale := match data.scale with | some s => s | none => c.scale }

/-- Patch shape for PhysicsComponent.serialize/deserialize. -/
structure PhysicsPatch where
  velocity : Option Vec3
  acceleration : Option Vec3
  mass : Option ℚ
  isStatic : Option Bool
  useGravity : Option Bool
  collider : Option PhysicsCollider
  friction : Option ℚ
  restitution : Option ℚ
deriving DecidableEq, Repr

def PhysicsComponent.serialize (c : PhysicsComponent) : PhysicsPatch :=
  { velocity := some c.velocity
    acceleration := some c.acceleration
    mass := some c.mass
    isStatic := some c.isStatic
    useGravity := some c.useGravity
    collider := some c.collider
    friction := some c.friction
    restitution := some c.restitution }

/-- PhysicsComponent.deserialize: object fields are guarded by truthiness,
scalar and boolean fields by a check against undefined (so a provided 0 or
false IS applied). -/
def PhysicsComponent.deserialize (c : PhysicsComponent) (data : PhysicsPatch) :
    PhysicsComponent :=
  { velocity := match data.velocity with | some v => v | none => c.velocity
    acceleration := match data.acceleration with | some a => a | none => c.acceleration
    mass := match data.mass with | some m => m | none => c.mass
    isStatic := match data.isStatic with | some b => b | none => c.isStatic
    useGravity := match data.useGravity with | some b => b | none => c.useGravity
    collider := match data.collider with | some col => col | none => c.collider
    friction := match data.friction with | some f => f | none => c.friction
    restitution := match data.restitution with | some r => r | none => c.restitution }

/-- Patch shape for RenderComponent.serialize/deserialize. -/
structure RenderPatch where
  mesh : Option RenderMesh
  material : Option RenderMaterial
  visible : Option Bool
deriving DecidableEq, Repr

def RenderComponent.serialize (c : RenderComponent) : RenderPatch :=
  { mesh := some c.mesh
    material := some c.material
    visible := some c.visible }

/-- RenderComponent.deserialize: mesh and material guarded by truthiness
(present objects), visible guarded against undefined. -/
def RenderComponent.deserialize (c : RenderComponent) (data : RenderPatch) :
    RenderComponent :=
  { mesh := match data.mesh with | some m => m | none => c.mesh
    material := match data.material with | some m => m | none => c.material
    visible := match data.visible with | some v => v | none => c.visible }

/-- Patch shape for NetworkComponent.serialize/deserialize.  serialize emits
an authorityType field, but deserialize has no branch reading it. -/
structure NetworkPatch where
  networkId : Option String
  owner : Option String
  lastUpdate : Option ℚ
  lastInput : Option GameInput
  authorityType : Option AuthorityType
  lastProcessedInput : Option ℚ
  lastValidatedState : Option ValidatedState
deriving DecidableEq, Repr

def NetworkComponent.serialize (c : NetworkComponent) : NetworkPatch :=
  { networkId := some c.networkId
    owner := some c.owner
    lastUpdate := some c.lastUpdate
    lastInput := c.lastInput
    authorityType := some c.authorityType
    lastProcessedInput := some c.lastProcessedInput
    lastValidatedState := c.lastValidatedState }

/-- NetworkComponent.deserialize: every guard is a JS truthiness test, so a
provided empty string or zero is NOT applied; there is no branch for
authorityType at all. -/
def NetworkComponent.deserialize (c : NetworkComponent) (data : NetworkPatch) :
    NetworkComponent :=
  { networkId := match data.networkId with
      | some s => if s ≠ "" then s else c.networkId
      | none => c.networkId
    owner := match data.owner with
      | some s => if s ≠ "" then s else c.owner
      | none => c.owner
    lastUpdate := match data.lastUpdate with
      | some v => if v ≠ 0 then v else c.lastUpdate
      | none => c.lastUpdate
    lastInput := match data.lastInput with
      | some i => some i
      | none => c.lastInput
    authorityType := c.authorityType
    lastProcessedInput := match data.lastProcessedInput with
      | some v => if v ≠ 0 then v else c.lastProcessedInput
      | none => c.lastProcessedInput
    lastValidatedState := match data.lastValidatedState with
      | some s => some s
      | none => c.lastValidatedState }

/-! ### Entity (Entity.ts) -/

/-- The closed set of component kinds stored on entities. -/
inductive Component where
  | transform : TransformComponent → Component
  | physics : PhysicsComponent → Component
  | render : RenderComponent → Component
  | network : NetworkComponent → Component
deriving DecidableEq, Repr

/-- Entity from Entity.ts: an id, a Map from component type name to component,
and a destroyed flag.  The Map is modelled as an association list with
insertion order. -/
structure Entity where
  id : String
  components : List (String × Component)
  isDestroyed : Bool
deriving DecidableEq, Repr

/-- Entity.getComponent: undefined on a destroyed entity, else Map.get. -/
def Entity.getComponent (e : Entity) (componentType : String) : Option Component :=
  if e.isDestroyed then none else e.components.lookup componentType

/-- Entity.hasComponent. -/
def Entity.hasComponent (e : Entity) (componentType : String) : Bool :=
  !e.isDestroyed && (e.components.lookup componentType).isSome

/-- Entity.hasComponents: AND over the requested types. -/
def Entity.hasComponents (e : Entity) (componentTypes : List String) : Bool :=
  !e.isDestroyed && componentTypes.all (fun t => (e.components.lookup t).isSome)

/-- Entity.destroy: early return when already destroyed, else clear the
component map and set the flag (component cleanup callbacks are external
side effects with no ECS-visible state). -/
def Entity.destroy (e : Entity) : Entity :=
  if e.isDestroyed then e
  else { e with components := [], isDestroyed := true }

/-- Entity.isActive. -/
def Entity.isActive (e : Entity) : Bool :=
  !e.isDestroyed

/-- Typed read of the TransformComponent entry, as the systems do via
getComponent with a type cast. -/
def Entity.getTransform (e : Entity) : Option TransformComponent :=
  match e.getComponent "TransformComponent" with
  | some (.transform t) => some t
  | _ => none

/-- Typed read of the PhysicsComponent entry. -/
def Entity.getPhysics (e : Entity) : Option PhysicsComponent :=
  match e.getComponent "PhysicsComponent" with
  | some (.physics p) => some p
  | _ => none

/-- Typed read of the NetworkComponent entry. -/
def Entity.getNetwork (e : Entity) : Option NetworkComponent :=
  match e.getComponent "NetworkComponent" with
  | some (.network n) => some n
  | _ => none

/-- In-place mutation of a stored component object (TS code mutates the object
returned by getComponent; the store keeps pointing at it). -/
def Entity.setComponent (e : Entity) (componentType : String) (c : Component) : Entity :=
  { e with components :=
      e.components.map (fun p => if p.1 = componentType then (componentType, c) else p) }

/-! ### PhysicsSystem (PhysicsSystem.ts)

The external physics engine (RAPIER) is an opaque collaborator.  A rigid body
is modelled by the state the bridge reads/writes: translation and linear and
angular velocity.  setTranslation / setLinvel / setAngvel are plain setters;
applyImpulse is engine-internal (depends on mass/inertia) and is passed in as
a parameter. -/

/-- The engine-side state of a rigid body as observed by the bridge. -/
structure RigidBody where
  translation : Vec3
  linvel : Vec3
  angvel : Vec3
deriving DecidableEq, Repr

/-- PhysicsObject record: the mapped body plus the cached isStatic flag
(collider handle carries no further bridge-visible state). -/
structure PhysicsObject where
  body : RigidBody
  isStatic : Bool
deriving DecidableEq, Repr

/-- The physicsObjects map of PhysicsSystem, keyed by entity identity. -/
structure PhysicsSystemState where
  physicsObjects : List (String × PhysicsObject)
deriving DecidableEq, Repr

/-- JS Map.set: replace in place if the key exists, else append. -/
def mapSet {α : Type} (m : List (String × α)) (k : String) (v : α) : List (String × α) :=
  if (m.lookup k).isSome then
    m.map (fun p => if p.1 = k then (k, v) else p)
  else m ++ [(k, v)]

/-- The optional-field vector passed to setLinearVelocity. -/
structure Vec3Opt where
  x : Option ℚ
  y : Option ℚ
  z : Option ℚ
deriving DecidableEq, Repr

/-- JS expression v OR fallback on an optional number: falls back when the
field is absent or 0 (both falsy). -/
def jsNumOr (v : Option ℚ) (fallback : ℚ) : ℚ :=
  match v with
  | some x => if x ≠ 0 then x else fallback
  | none => fallback

namespace PhysicsSystem

/-- PhysicsSystem.shouldProcessEntity, translated clause by clause. -/
def shouldProcessEntity (e : Entity) : Bool :=
  let network := e.getNetwork
  match e.getPhysics, e.getTransform with
  | some physics, some _ =>
    (match network with
     | none => true
     | some n =>
       n.authorityType == AuthorityType.SERVER
       || physics.isStatic
       || (n.authorityType == AuthorityType.CLIENT && !physics.isStatic))
  | _, _ => false

/-- PhysicsSystem.setLinearVelocity: no-op when the entity has no mapped body
or the body is static; otherwise sets the body linear velocity, each absent or
zero requested coordinate falling back to the current one (JS OR). -/
def setLinearVelocity (sys : PhysicsSystemState) (e : Entity) (velocity : Vec3Opt) :
    PhysicsSystemState :=
  match sys.physicsObjects.lookup e.id with
  | none => sys
  | some po =>
    if po.isStatic then sys
    else
      let lv := po.body.linvel
      { physicsObjects := mapSet sys.physicsObjects e.id
          { po with body := { po.body with linvel :=
              ⟨jsNumOr velocity.x lv.x, jsNumOr velocity.y lv.y, jsNumOr velocity.z lv.z⟩ } } }

/-- PhysicsSystem.applyImpulse: no-op when unmapped or static; otherwise the
engine applies the impulse to the body (engineImpulse is the opaque RAPIER
behaviour). -/
def applyImpulse (engineImpulse : RigidBody → Vec3 → RigidBody)
    (sys : PhysicsSystemState) (e : Entity) (impulse : Vec3) : PhysicsSystemState :=
  match sys.physicsObjects.lookup e.id with
  | none => sys
  | some po =>
    if po.isStatic then sys
    else
      { physicsObjects := mapSet sys.physicsObjects e.id
          { po with body := engineImpulse po.body impulse } }

/-- PhysicsSystem.setPosition: guarded only on the Transform and Physics
components and the mapped body being present — there is no isStatic check.
Teleports the transform and body and zeroes component and body velocities. -/
def setPosition (sys : PhysicsSystemState) (e : Entity) (position : Vec3) :
    PhysicsSystemState × Entity :=
  match e.getTransform, e.getPhysics, sys.physicsObjects.lookup e.id with
  | some transform, some physics, some po =>
    let e1 := e.setComponent "TransformComponent"
      (.transform { transform with position := position })
    let e2 := e1.setComponent "PhysicsComponent"
      (.physics { physics with velocity := ⟨0, 0, 0⟩, acceleration := ⟨0, 0, 0⟩ })
    let sys1 : PhysicsSystemState :=
      { physicsObjects := mapSet sys.physicsObjects e.id
          { po with body := { translation := position, linvel := ⟨0, 0, 0⟩,
                              angvel := ⟨0, 0, 0⟩ } } }
    (sys1, e2)
  | _, _, _ => (sys, e)

end PhysicsSystem

/-! ### NetworkSyncSystem (NetworkSyncSystem.ts) -/

/-- The transform part of a NetworkState snapshot. -/
structure SnapshotTransform where
  position : Vec3
  rotation : Quat
  scale : Vec3
deriving DecidableEq, Repr

/-- The optional physics part of a NetworkState snapshot. -/
structure SnapshotPhysics where
  velocity : Vec3
  acceleration : Vec3
deriving DecidableEq, Repr

/-- NetworkState from NetworkSyncSystem.ts. -/
structure NetworkState where
  networkId : String
  timestamp : ℚ
  transform : SnapshotTransform
  physics : Option SnapshotPhysics
deriving DecidableEq, Repr

instance : Inhabited NetworkState :=
  ⟨{ networkId := ""
     timestamp := 0
     transform := { position := ⟨0, 0, 0⟩, rotation := ⟨0, 0, 0, 1⟩, scale := ⟨1, 1, 1⟩ }
     physics := none }⟩

/-- StateBuffer from NetworkSyncSystem.ts. -/
structure StateBuffer where
  states : List NetworkState
  lastProcessedTime : ℚ
deriving DecidableEq, Repr

/-- The mutable state of a NetworkSyncSystem instance: its entity membership
list and the private fields. -/
structure NetworkSyncSystem where
  entities : List Entity
  stateBuffers : List (String × StateBuffer)
  lastSnapshotTime : ℚ
  inputSequenceNumber : Nat
  pendingInputs : List (Nat × GameInput)
deriving DecidableEq, Repr

namespace NetworkSyncSystem

/-- Size of the interpolation buffer. -/
def BUFFER_SIZE : Nat := 32

/-- Interpolation delay in ms. -/
def INTERPOLATION_DELAY : ℚ := 100

/-- Send rate in ms. -/
def SNAPSHOT_RATE : ℚ := 50

/-- findEntityByNetworkId: first entity whose NetworkComponent carries the id. -/
def findEntityByNetworkId (entities : List Entity) (networkId : String) : Option Entity :=
  entities.find? (fun e =>
    match e.getNetwork with
    | some n => n.networkId == networkId
    | none => false)

/-- lerpVector3. -/
def lerpVector3 (start finish : Vec3) (alpha : ℚ) : Vec3 :=
  ⟨start.x + (finish.x - start.x) * alpha,
   start.y + (finish.y - start.y) * alpha,
   start.z + (finish.z - start.z) * alpha⟩

/-- lerpQuaternion: componentwise lerp then normalization; Math.sqrt is the
external numeric library, passed in as a parameter. -/
def lerpQuaternion (sqrt : ℚ → ℚ) (start finish : Quat) (alpha : ℚ) : Quat :=
  let t : Quat :=
    ⟨start.x + (finish.x - start.x) * alpha,
     start.y + (finish.y - start.y) * alpha,
     start.z + (finish.z - start.z) * alpha,
     start.w + (finish.w - start.w) * alpha⟩
  let length := sqrt (t.x * t.x + t.y * t.y + t.z * t.z + t.w * t.w)
  ⟨t.x / length, t.y / length, t.z / length, t.w / length⟩

/-- createSnapshot: null without Transform or Network; physics part optional. -/
def createSnapshot (e : Entity) (timestamp : ℚ) : Option NetworkState :=
  match e.getTransform, e.getNetwork with
  | some transform, some network =>
    some { networkId := network.networkId
           timestamp := timestamp
           transform := { position := transform.position, rotation := transform.rotation,
                          scale := transform.scale }
           physics := e.getPhysics.map (fun p =>
             { velocity := p.velocity, acceleration := p.acceleration }) }
  | _, _ => none

/-- The chronological insertion of applySnapshot: splice before the first
buffered state with a strictly greater timestamp, else push at the end. -/
def insertChron (states : List NetworkState) (snapshot : NetworkState) :
    List NetworkState :=
  match states with
  | [] => [snapshot]
  | s :: rest =>
    if snapshot.timestamp < s.timestamp then snapshot :: s :: rest
    else s :: insertChron rest snapshot

/-- The buffer-size maintenance loop: shift (drop the oldest, at the front)
while the length exceeds BUFFER_SIZE. -/
def trimBuffer (states : List NetworkState) : List NetworkState :=
  states.drop (states.length - BUFFER_SIZE)

/-- applySnapshot: guarded on a resolvable entity whose authority is not
SERVER; lazily creates the per-networkId buffer, inserts in timestamp order
and trims to BUFFER_SIZE. -/
def applySnapshot (sys : NetworkSyncSystem) (snapshot : NetworkState) :
    NetworkSyncSystem :=
  match findEntityByNetworkId sys.entities snapshot.networkId with
  | none => sys
  | some entity =>
    match entity.getNetwork with
    | none => sys
    | some network =>
      if network.authorityType == AuthorityType.SERVER then sys
      else
        let buffer := (sys.stateBuffers.lookup snapshot.networkId).getD
          { states := [], lastProcessedTime := 0 }
        let buffer1 := { buffer with states := trimBuffer (insertChron buffer.states snapshot) }
        { sys with stateBuffers := mapSet sys.stateBuffers snapshot.networkId buffer1 }

/-- The server-side snapshot-capture step of update for one entity: push the
fresh snapshot at the end of the per-networkId buffer and trim. -/
def captureSnapshot (sys : NetworkSyncSystem) (networkId : String)
    (snapshot : NetworkState) : NetworkSyncSystem :=
  let buffer := (sys.stateBuffers.lookup networkId).getD
    { states := [], lastProcessedTime := 0 }
  let buffer1 := { buffer with states := trimBuffer (buffer.states ++ [snapshot]) }
  { sys with stateBuffers := mapSet sys.stateBuffers networkId buffer1 }

/-- The bracketing-scan loop of interpolateState: starting at i = 0, advance
while i < length - 1 and states[i+1].timestamp < interpolationTime. -/
def bracketIndex (states : List NetworkState) (t : ℚ) : Nat :=
  match states with
  | [] => 0
  | [_] => 0
  | _ :: s2 :: rest =>
    if s2.timestamp ≥ t then 0 else bracketIndex (s2 :: rest) t + 1

/-- interpolateState: skip unless the buffer holds at least two states and a
bracketing pair around currentTime - INTERPOLATION_DELAY exists with positive
time difference; then lerp transform (and physics when present on entity and
both states) and record lastProcessedTime. -/
def interpolateState (sqrt : ℚ → ℚ) (sys : NetworkSyncSystem) (entity : Entity)
    (currentTime : ℚ) : NetworkSyncSystem × Entity :=
  match entity.getNetwork, entity.getTransform with
  | some network, some _ =>
    match sys.stateBuffers.lookup network.networkId with
    | none => (sys, entity)
    | some buffer =>
      if buffer.states.length < 2 then (sys, entity)
      else
        let interpolationTime := currentTime - INTERPOLATION_DELAY
        let i := bracketIndex buffer.states interpolationTime
        if i ≥ buffer.states.length - 1 then (sys, entity)
        else
          let beforeState := buffer.states.getD i default
          let afterState := buffer.states.getD (i + 1) default
          let timeDiff := afterState.timestamp - beforeState.timestamp
          if timeDiff ≤ 0 then (sys, entity)
          else
            let alpha := (interpolationTime - beforeState.timestamp) / timeDiff
            let transform1 : TransformComponent :=
              { position := lerpVector3 beforeState.transform.position
                  afterState.transform.position alpha
                rotation := lerpQuaternion sqrt beforeState.transform.rotation
                  afterState.transform.rotation alpha
                scale := lerpVector3 beforeState.transform.scale
                  afterState.transform.scale alpha }
            let entity1 := entity.setComponent "TransformComponent" (.transform transform1)
            let entity2 :=
              match entity.getPhysics, beforeState.physics, afterState.physics with
              | some physics, some bp, some ap =>
                entity1.setComponent "PhysicsComponent" (.physics
                  { physics with
                      velocity := lerpVector3 bp.velocity ap.velocity alpha
                      acceleration := lerpVector3 bp.acceleration ap.acceleration alpha })
              | _, _, _ => entity1
            let buffer1 := { buffer with lastProcessedTime := interpolationTime }
            ({ sys with stateBuffers := mapSet sys.stateBuffers network.networkId buffer1 },
             entity2)
  | _, _ => (sys, entity)

/-- applyInput: writes the requested horizontal velocity (when the input has a
truthy velocity) and the jump force into the PhysicsComponent. -/
def applyInput (e : Entity) (input : GameInput) : Entity :=
  match e.getPhysics with
  | none => e
  | some physics =>
    let v1 := match input.velocity with
      | some iv => { physics.velocity with x := iv.x, z := iv.z }
      | none => physics.velocity
    let v2 := if input.jump then { v1 with y := (5 : ℚ) } else v1
    e.setComponent "PhysicsComponent" (.physics { physics with velocity := v2 })

/-- predict: log the input under the next sequence number, then apply it to
every CLIENT-authority entity. -/
def predict (sys : NetworkSyncSystem) (input : GameInput) : NetworkSyncSystem :=
  let sys1 := { sys with
    pendingInputs := sys.pendingInputs ++ [(sys.inputSequenceNumber, input)]
    inputSequenceNumber := sys.inputSequenceNumber + 1 }
  { sys1 with entities := sys1.entities.map (fun e =>
      match e.getNetwork with
      | some n => if n.authorityType == AuthorityType.CLIENT then applyInput e input else e
      | none => e) }

/-- reconcile: guarded on a resolvable CLIENT-authority entity; overwrite the
transform from the authoritative state, then reapply every pending input in
log order.  No entry of pendingInputs is removed. -/
def reconcile (sys : NetworkSyncSystem) (serverState : NetworkState) :
    NetworkSyncSystem :=
  match findEntityByNetworkId sys.entities serverState.networkId with
  | none => sys
  | some entity =>
    match entity.getNetwork with
    | none => sys
    | some network =>
      if network.authorityType != AuthorityType.CLIENT then sys
      else
        let entity1 := match entity.getTransform with
          | some transform => entity.setComponent "TransformComponent"
              (.transform { transform with
                  position := serverState.transform.position
                  rotation := serverState.transform.rotation
                  scale := serverState.transform.scale })
          | none => entity
        let entity2 := sys.pendingInputs.foldl (fun e p => applyInput e p.2) entity1
        { sys with entities := sys.entities.map (fun e =>
            if e.id = entity.id then entity2 else e) }

/-- The sequence numbers replayed by a reconcile call: every pending entry
when the guards pass, none otherwise. -/
def reconcileReplays (sys : NetworkSyncSystem) (serverState : NetworkState) :
    List Nat :=
  match findEntityByNetworkId sys.entities serverState.networkId with
  | none => []
  | some entity =>
    match entity.getNetwork with
    | none => []
    | some network =>
      if network.authorityType != AuthorityType.CLIENT then []
      else sys.pendingInputs.map Prod.fst

end NetworkSyncSystem

/-! ### GameStateDeserializer (GameStateDeserializer.ts) and the wire schema
(MessageSchemas.ts)

The typed-array-buffer schema always decodes every field of the flat entity
record, so a decoded record carries every field as a plain value; fromBuffer
itself is external library code.  The decoder below starts from the decoded
record. -/

/-- JS expression v OR d on a number that is always present: d when v is 0. -/
def jsOr (v d : ℚ) : ℚ :=
  if v ≠ 0 then v else d

/-- JS expression v OR d on a nonnegative integer field. -/
def jsOrN (v d : Nat) : Nat :=
  if v ≠ 0 then v else d

/-- String.prototype.trim: strip whitespace from both ends. -/
def jsTrim (s : String) : String :=
  String.mk (((s.data.dropWhile Char.isWhitespace).reverse.dropWhile
    Char.isWhitespace).reverse)

/-- Number.prototype.toString(16) for a nonnegative integer. -/
def natToHexString (n : Nat) : String :=
  String.mk (Nat.toDigits 16 n)

/-- String.prototype.padStart with a pad character. -/
def padStart (s : String) (len : Nat) (c : Char) : String :=
  String.mk (List.replicate (len - s.length) c) ++ s

/-- The flat per-entity record of the wire schema: every field is present in
every decoded record, whatever componentFlags says. -/
structure CompressedEntityRecord where
  networkId : String
  componentFlags : Nat
  positionX : ℚ
  positionY : ℚ
  positionZ : ℚ
  rotationX : ℚ
  rotationY : ℚ
  rotationZ : ℚ
  rotationW : ℚ
  scaleX : ℚ
  scaleY : ℚ
  scaleZ : ℚ
  velocityX : ℚ
  velocityY : ℚ
  velocityZ : ℚ
  physicsFlags : Nat
  colorR : Nat
  colorG : Nat
  colorB : Nat
  meshScale : ℚ
  authorityType : Nat
  lastUpdateSequence : Nat
deriving DecidableEq, Repr

/-- The ComponentFlags constants of MessageSchemas.ts. -/
def ComponentFlags.TRANSFORM : Nat := 1 <<< 0
def ComponentFlags.PHYSICS : Nat := 1 <<< 1
def ComponentFlags.RENDER : Nat := 1 <<< 2
def ComponentFlags.NETWORK : Nat := 1 <<< 3

/-- Transform part of a decoded entity. -/
structure DecodedTransform where
  position : Vec3
  rotation : Quat
  scale : Vec3
deriving DecidableEq, Repr

/-- Physics part of a decoded entity. -/
structure DecodedPhysics where
  velocity : Vec3
  isStatic : Bool
  useGravity : Bool
  isGrounded : Bool
deriving DecidableEq, Repr

/-- Render part of a decoded entity. -/
structure DecodedRender where
  color : String
  meshScale : ℚ
deriving DecidableEq, Repr

/-- Network part of a decoded entity. -/
structure DecodedNetwork where
  authorityType : String
  lastUpdateSequence : Nat
deriving DecidableEq, Repr

/-- A decoded per-entity object.  Each component property is an Option so that
presence/absence of the rebuilt structured component is observable. -/
structure DecodedEntity where
  networkId : String
  transform : Option DecodedTransform
  physics : Option DecodedPhysics
  render : Option DecodedRender
  network : Option DecodedNetwork
deriving DecidableEq, Repr

namespace GameStateDeserializer

/-- The private rgbToHex of GameStateDeserializer. -/
def rgbToHex (r g b : Nat) : Nat :=
  (r <<< 16) ||| (g <<< 8) ||| b

/-- GameStateDeserializer.decompressEntity: rebuilds the transform, physics,
render and network objects from the flattened record.  It never reads
componentFlags. -/
def decompressEntity (compressed : CompressedEntityRecord) : DecodedEntity :=
  let physicsFlags := jsOrN compressed.physicsFlags 0
  let color := rgbToHex (jsOrN compressed.colorR 255) (jsOrN compressed.colorG 255)
    (jsOrN compressed.colorB 255)
  let authorityMap := ["server", "client", "shared"]
  { networkId := jsTrim compressed.networkId
    transform := some
      { position := ⟨jsOr compressed.positionX 0, jsOr compressed.positionY 0,
          jsOr compressed.positionZ 0⟩
        rotation := ⟨jsOr compressed.rotationX 0, jsOr compressed.rotationY 0,
          jsOr compressed.rotationZ 0, jsOr compressed.rotationW 1⟩
        scale := ⟨jsOr compressed.scaleX 1, jsOr compressed.scaleY 1,
          jsOr compressed.scaleZ 1⟩ }
    physics := some
      { velocity := ⟨jsOr compressed.velocityX 0, jsOr compressed.velocityY 0,
          jsOr compressed.velocityZ 0⟩
        isStatic := (physicsFlags &&& 1) ≠ 0
        useGravity := (physicsFlags &&& 2) ≠ 0
        isGrounded := (physicsFlags &&& 4) ≠ 0 }
    render := some
      { color := "#" ++ padStart (natToHexString color) 6 '0'
        meshScale := jsOr compressed.meshScale 1 }
    network := some
      { authorityType := authorityMap.getD compressed.authorityType "server"
        lastUpdateSequence := jsOrN compressed.lastUpdateSequence 0 } }

/-- A decoded gameState batch as produced by GameStateModel.fromBuffer. -/
structure CompressedState where
  timestampDelta : ℚ
  sequence : Int
  entities : List CompressedEntityRecord
deriving DecidableEq, Repr

/-- The decoded game state returned on acceptance. -/
structure GameStateData where
  timestamp : ℚ
  sequence : Int
  entities : List DecodedEntity
deriving DecidableEq, Repr

/-- GameStateDeserializer.deserializeGameState, from the decoded batch on:
reject (null, state untouched) when the sequence is not beyond the last
accepted one; otherwise update lastSequence, reconstruct the absolute
timestamp from the connection epoch and decompress the entities.  Returns the
result together with the new lastSequence field. -/
def deserializeGameState (connectionStartTime : ℚ) (lastSequence : Int)
    (compressedState : CompressedState) : Option GameStateData × Int :=
  if compressedState.sequence ≤ lastSequence then
    (none, lastSequence)
  else
    let timestamp := connectionStartTime + compressedState.timestampDelta * 1000
    (some { timestamp := timestamp
            sequence := compressedState.sequence
            entities := compressedState.entities.map decompressEntity },
     compressedState.sequence)

/-- Feeding a sequence of batches to one deserializer instance (lastSequence
starts at -1 on construction); returns the accepted sequence numbers in order
and the final lastSequence. -/
def runBatches (connectionStartTime : ℚ) (lastSequence : Int)
    (batches : List CompressedState) : List Int × Int :=
  match batches with
  | [] => ([], lastSequence)
  | b :: rest =>
    let step := deserializeGameState connectionStartTime lastSequence b
    let next := runBatches connectionStartTime step.2 rest
    (match step.1 with
     | some gs => gs.sequence :: next.1
     | none => next.1,
     next.2)

end GameStateDeserializer

/-! ### Invariants and concrete fixtures -/

/-- The interpolation-buffer invariant: states sorted by non-decreasing
timestamp and at most BUFFER_SIZE of them. -/
def BufferWF (b : StateBuffer) : Prop :=
  b.states.Pairwise (fun a c => a.timestamp ≤ c.timestamp) ∧
  b.states.length ≤ NetworkSyncSystem.BUFFER_SIZE

instance (b : StateBuffer) : Decidable (BufferWF b) := by
  unfold BufferWF
  infer_instance

/-- Identity transform fixture. -/
def idTransform : TransformComponent :=
  { position := ⟨0, 0, 0⟩, rotation := ⟨0, 0, 0, 1⟩, scale := ⟨1, 1, 1⟩ }

/-- A dynamic physics component fixture. -/
def dynPhysics : PhysicsComponent :=
  { velocity := ⟨0, 0, 0⟩, acceleration := ⟨0, 0, 0⟩, mass := 1, isStatic := false
    useGravity := true
    collider := { ctype := "box", size := ⟨1, 1, 1⟩, offset := ⟨0, 0, 0⟩ }
    friction := 1/10, restitution := 1/2 }

/-- A static physics component fixture. -/
def staticPhysics : PhysicsComponent :=
  { dynPhysics with isStatic := true }

/-- A network component fixture. -/
def mkNetwork (nid owner : String) (a : AuthorityType) (lastProcessed : ℚ) :
    NetworkComponent :=
  { networkId := nid, owner := owner, lastUpdate := 1, lastInput := none
    authorityType := a, lastProcessedInput := lastProcessed
    lastValidatedState := none }

/-- Static entity with no network component (C6 accept case). -/
def eStaticNoNet : Entity :=
  { id := "e-static", isDestroyed := false
    components := [("PhysicsComponent", .physics staticPhysics),
                   ("TransformComponent", .transform idTransform)] }

/-- Server-authoritative dynamic entity (C6 accept case). -/
def eServerDyn : Entity :=
  { id := "e-server", isDestroyed := false
    components := [("PhysicsComponent", .physics dynPhysics),
                   ("TransformComponent", .transform idTransform),
                   ("NetworkComponent", .network (mkNetwork "n-server" "srv" .SERVER 0))] }

/-- Client-authoritative dynamic entity (C6 accept case). -/
def eClientDyn : Entity :=
  { id := "e-client", isDestroyed := false
    components := [("PhysicsComponent", .physics dynPhysics),
                   ("TransformComponent", .transform idTransform),
                   ("NetworkComponent", .network (mkNetwork "n-client" "peer1" .CLIENT 0))] }

/-- Client-authoritative static entity (C6 accept case). -/
def eClientStatic : Entity :=
  { id := "e-cstatic", isDestroyed := false
    components := [("PhysicsComponent", .physics staticPhysics),
                   ("TransformComponent", .transform idTransform),
                   ("NetworkComponent", .network (mkNetwork "n-cstatic" "peer1" .CLIENT 0))] }

/-- A dynamic entity owned by a remote peer, the natural instantiation of the
entity class the spec says is excluded from physics. -/
def eRemoteDyn : Entity :=
  { id := "e-remote", isDestroyed := false
    components := [("PhysicsComponent", .physics dynPhysics),
                   ("TransformComponent", .transform idTransform),
                   ("NetworkComponent", .network (mkNetwork "n-remote" "other-peer" .CLIENT 0))] }

/-- An input sample fixture. -/
def input0 : GameInput :=
  { velocity := some ⟨1, 0, 0⟩, jump := false }

/-- Controlled (CLIENT-authority) entity whose authoritative side has already
processed input sequence 5. -/
def eControlled : Entity :=
  { id := "e-ctl", isDestroyed := false
    components := [("NetworkComponent", .network (mkNetwork "p1" "me" .CLIENT 5)),
                   ("TransformComponent", .transform idTransform),
                   ("PhysicsComponent", .physics dynPhysics)] }

/-- System fixture for reconciliation: one controlled entity and one pending
input whose sequence 0 is at most the authoritative last-processed 5. -/
def sysC1 : NetworkSyncSystem :=
  { entities := [eControlled], stateBuffers := [], lastSnapshotTime := 0
    inputSequenceNumber := 1, pendingInputs := [(0, input0)] }

/-- Authoritative reconciliation state for the controlled entity. -/
def ssC1 : NetworkState :=
  { networkId := "p1", timestamp := 0
    transform := { position := ⟨0, 0, 0⟩, rotation := ⟨0, 0, 0, 1⟩, scale := ⟨1, 1, 1⟩ }
    physics := none }

/-- Buffered snapshot at t = 100 with position x = 0. -/
def snap100 : NetworkState :=
  { networkId := "p2", timestamp := 100
    transform := { position := ⟨0, 0, 0⟩, rotation := ⟨0, 0, 0, 1⟩, scale := ⟨1, 1, 1⟩ }
    physics := none }

/-- Buffered snapshot at t = 200 with position x = 10. -/
def snap200 : NetworkState :=
  { networkId := "p2", timestamp := 200
    transform := { position := ⟨10, 0, 0⟩, rotation := ⟨0, 0, 0, 1⟩, scale := ⟨1, 1, 1⟩ }
    physics := none }

/-- Observed (non-server-authoritative) entity for interpolation. -/
def eObserved : Entity :=
  { id := "e-obs", isDestroyed := false
    components := [("NetworkComponent", .network (mkNetwork "p2" "peer2" .CLIENT 0)),
                   ("TransformComponent", .transform idTransform)] }

/-- System fixture for interpolation: the observed entity and its two-state
buffer. -/
def sysC4 : NetworkSyncSystem :=
  { entities := [eObserved]
    stateBuffers := [("p2", { states := [snap100, snap200], lastProcessedTime := 0 })]
    lastSnapshotTime := 0, inputSequenceNumber := 0, pendingInputs := [] }

/-- A mapped static entity for the physics bridge. -/
def eMappedStatic : Entity :=
  { id := "s1", isDestroyed := false
    components := [("TransformComponent", .transform idTransform),
                   ("PhysicsComponent", .physics staticPhysics)] }

/-- Physics bridge fixture: the static entity is mapped to a static body at
the origin. -/
def sysPhys : PhysicsSystemState :=
  { physicsObjects := [("s1",
      { body := { translation := ⟨0, 0, 0⟩, linvel := ⟨0, 0, 0⟩, angvel := ⟨0, 0, 0⟩ }
        isStatic := true })] }

/-- An engine impulse behaviour fixture (identity). -/
def impulseId : RigidBody → Vec3 → RigidBody :=
  fun b _ => b

/-- An unmapped entity fixture. -/
def eUnmapped : Entity :=
  { id := "u1", isDestroyed := false
    components := [("TransformComponent", .transform idTransform),
                   ("PhysicsComponent", .physics dynPhysics)] }

/-- A wire record with every componentFlags bit cleared. -/
def recFlagsClear : CompressedEntityRecord :=
  { networkId := "abc", componentFlags := 0
    positionX := 1, positionY := 2, positionZ := 3
    rotationX := 0, rotationY := 0, rotationZ := 0, rotationW := 1
    scaleX := 1, scaleY := 1, scaleZ := 1
    velocityX := 0, velocityY := 0, velocityZ := 0
    physicsFlags := 0, colorR := 10, colorG := 20, colorB := 30
    meshScale := 1, authorityType := 0, lastUpdateSequence := 7 }

/-- A wire batch fixture with a given sequence number and no entities. -/
def mkBatch (n : Int) : GameStateDeserializer.CompressedState :=
  { timestampDelta := 0, sequence := n, entities := [] }

/-- Source network component for the round-trip law: CLIENT authority, every
truthiness-guarded field truthy. -/
def netSrc : NetworkComponent :=
  { networkId := "idA", owner := "ownerA", lastUpdate := 3
    lastInput := some input0, authorityType := .CLIENT, lastProcessedInput := 4
    lastValidatedState := some { position := ⟨1, 1, 1⟩, velocity := ⟨0, 0, 0⟩, timestamp := 9 } }

/-- Round-trip target network component with SERVER authority. -/
def netTgt : NetworkComponent :=
  { networkId := "idB", owner := "ownerB", lastUpdate := 8
    lastInput := none, authorityType := .SERVER, lastProcessedInput := 6
    lastValidatedState := none }

/-- A patch whose provided values are all JS-falsy. -/
def patchFalsy : NetworkPatch :=
  { networkId := some "", owner := some "", lastUpdate := some 0
    lastInput := none, authorityType := some .CLIENT
    lastProcessedInput := some 0, lastValidatedState := none }

/-- An empty physics bridge. -/
def sysPhysEmpty : PhysicsSystemState :=
  { physicsObjects := [] }

/-- The mapped static body of sysPhys. -/
def poStatic : PhysicsObject :=
  { body := { translation := ⟨0, 0, 0⟩, linvel := ⟨0, 0, 0⟩, angvel := ⟨0, 0, 0⟩ }
    isStatic := true }

/-- Network sync fixture for the buffer invariant: the observed entity with a
one-snapshot buffer. -/
def sysC9 : NetworkSyncSystem :=
  { entities := [eObserved]
    stateBuffers := [("p2", { states := [snap100], lastProcessedTime := 0 })]
    lastSnapshotTime := 0, inputSequenceNumber := 0, pendingInputs := [] }

/-! ## Helper lemmas -/

/-- PhysicsSystem.shouldProcessEntity only tests component presence: with
AuthorityType two-valued, the authority disjunction is exhaustive. -/
theorem shouldProcess_eq_presence (e : Entity) :
    PhysicsSystem.shouldProcessEntity e = (e.getPhysics.isSome && e.getTransform.isSome) := by
  unfold PhysicsSystem.shouldProcessEntity
  cases hp : e.getPhysics with
  | none => simp
  | some physics =>
    cases ht : e.getTransform with
    | none => simp
    | some tr =>
      cases hn : e.getNetwork with
      | none => simp
      | some n =>
        cases hA : n.authorityType <;> cases hS : physics.isStatic <;>
          simp [hA, hS] <;> decide

/-! ## Claim theorems -/

/-- C7: Entity.destroy is idempotent, and on a destroyed entity getComponent
returns none while hasComponent and hasComponents return false for every
component type. -/
theorem C7_destroy_idempotent_lookups_not_found :
    ∀ (e : Entity) (t : String) (ts : List String),
      e.destroy.destroy = e.destroy ∧
      e.destroy.getComponent t = none ∧
      e.destroy.hasComponent t = false ∧
      e.destroy.hasComponents ts = false := by
  intro e t ts
  unfold Entity.destroy Entity.getComponent Entity.hasComponent Entity.hasComponents
  by_cases h : e.isDestroyed <;> simp [h]

/-- C6 counterexample: the eligibility predicate rejects nothing — no entity
having both Physics and Transform components is rejected, in particular not
the remote dynamic CLIENT-owned one, so the claimed excluded class is empty. -/
theorem C6_counterexample :
    PhysicsSystem.shouldProcessEntity eRemoteDyn = true ∧
    ¬ ∃ e : Entity, e.getPhysics.isSome = true ∧ e.getTransform.isSome = true ∧
        PhysicsSystem.shouldProcessEntity e = false := by
  constructor
  · decide
  · rintro ⟨e, hp, ht, hrej⟩
    rw [shouldProcess_eq_presence, hp, ht] at hrej
    exact absurd hrej (by decide)

/-- C6 amended: over entities with both Physics and Transform components the
predicate accepts everything (it equals the presence test), so the four
listed configurations are accepted and no configuration is rejected. -/
theorem C6_amended_eligibility :
    (∀ e : Entity, PhysicsSystem.shouldProcessEntity e =
      (e.getPhysics.isSome && e.getTransform.isSome)) ∧
    PhysicsSystem.shouldProcessEntity eStaticNoNet = true ∧
    PhysicsSystem.shouldProcessEntity eServerDyn = true ∧
    PhysicsSystem.shouldProcessEntity eClientDyn = true ∧
    PhysicsSystem.shouldProcessEntity eClientStatic = true :=
  ⟨shouldProcess_eq_presence, by decide, by decide, by decide, by decide⟩

/-- C10: NetworkComponent.deserialize ignores provided-but-falsy values
(zero numbers, empty strings) and never applies authorityType. -/
theorem C10_falsy_patch_values_ignored :
    ∀ (c : NetworkComponent) (p : NetworkPatch),
      (p.lastProcessedInput = some 0 →
        (c.deserialize p).lastProcessedInput = c.lastProcessedInput) ∧
      (p.lastUpdate = some 0 → (c.deserialize p).lastUpdate = c.lastUpdate) ∧
      (p.networkId = some "" → (c.deserialize p).networkId = c.networkId) ∧
      (p.owner = some "" → (c.deserialize p).owner = c.owner) ∧
      (c.deserialize p).authorityType = c.authorityType := by
  intro c p
  refine ⟨?_, ?_, ?_, ?_, rfl⟩ <;> intro h <;>
    simp [NetworkComponent.deserialize, h]

/-- C10 witness: the all-falsy patch leaves every guarded field of the
concrete target unchanged and its authority untouched. -/
theorem C10_witness :
    (netTgt.deserialize patchFalsy).lastProcessedInput = netTgt.lastProcessedInput ∧
    (netTgt.deserialize patchFalsy).lastUpdate = netTgt.lastUpdate ∧
    (netTgt.deserialize patchFalsy).networkId = netTgt.networkId ∧
    (netTgt.deserialize patchFalsy).owner = netTgt.owner ∧
    (netTgt.deserialize patchFalsy).authorityType = netTgt.authorityType :=
  ⟨(C10_falsy_patch_values_ignored netTgt patchFalsy).1 rfl,
   (C10_falsy_patch_values_ignored netTgt patchFalsy).2.1 rfl,
   (C10_falsy_patch_values_ignored netTgt patchFalsy).2.2.1 rfl,
   (C10_falsy_patch_values_ignored netTgt patchFalsy).2.2.2.1 rfl,
   (C10_falsy_patch_values_ignored netTgt patchFalsy).2.2.2.2⟩

/-- C3: the decoder rejects a batch whose sequence is at most the last
accepted one (returns none and keeps lastSequence), accepts a greater one
(updating lastSequence to it), and feeding sequences 5, 3, 7 accepts 5, 7. -/
theorem C3_sequence_monotonicity :
    (∀ (start : ℚ) (last : Int) (b : GameStateDeserializer.CompressedState),
      b.sequence ≤ last →
        GameStateDeserializer.deserializeGameState start last b = (none, last)) ∧
    (∀ (start : ℚ) (last : Int) (b : GameStateDeserializer.CompressedState),
      last < b.sequence →
        (∃ gs, (GameStateDeserializer.deserializeGameState start last b).1 = some gs ∧
          gs.sequence = b.sequence) ∧
        (GameStateDeserializer.deserializeGameState start last b).2 = b.sequence) ∧
    (GameStateDeserializer.runBatches 0 (-1) [mkBatch 5, mkBatch 3, mkBatch 7]).1 =
      [5, 7] := by
  refine ⟨?_, ?_, by decide⟩
  · intro s l b h
    simp [GameStateDeserializer.deserializeGameState, h]
  · intro s l b h
    have h2 : ¬ b.sequence ≤ l := not_le.mpr h
    refine ⟨⟨{ timestamp := s + b.timestampDelta * 1000, sequence := b.sequence,
               entities := b.entities.map GameStateDeserializer.decompressEntity },
             ?_, rfl⟩, ?_⟩ <;>
      simp [GameStateDeserializer.deserializeGameState, h2]

/-- C3 witness: a stale batch (sequence 3 after 5) is rejected and an advanced
one (sequence 7) moves lastSequence to 7. -/
theorem C3_witness :
    GameStateDeserializer.deserializeGameState 0 5 (mkBatch 3) = (none, 5) ∧
    (GameStateDeserializer.deserializeGameState 0 5 (mkBatch 7)).2 = 7 :=
  ⟨C3_sequence_monotonicity.1 0 5 (mkBatch 3) (by decide),
   (C3_sequence_monotonicity.2.1 0 5 (mkBatch 7) (by decide)).2⟩

/-- C2 counterexample: the deserializer rebuilds a Transform even when bit 0
of componentFlags is cleared — the presence mask does not gate rebuilding. -/
theorem C2_counterexample :
    ¬ (∀ r : CompressedEntityRecord, r.componentFlags.testBit 0 = false →
        (GameStateDeserializer.decompressEntity r).transform = none) := by
  intro h
  exact absurd (h recFlagsClear (by decide)) (by decide)

/-- C2 amended: GameStateDeserializer.decompressEntity rebuilds all four
structured components on every record, regardless of componentFlags. -/
theorem C2_amended_all_components_rebuilt :
    ∀ r : CompressedEntityRecord,
      (GameStateDeserializer.decompressEntity r).transform.isSome = true ∧
      (GameStateDeserializer.decompressEntity r).physics.isSome = true ∧
      (GameStateDeserializer.decompressEntity r).render.isSome = true ∧
      (GameStateDeserializer.decompressEntity r).network.isSome = true := by
  intro r
  exact ⟨rfl, rfl, rfl, rfl⟩

/-- C1 counterexample: the pending input with sequence 0, already processed by
the authoritative side (last-processed 5), is not pruned by reconcile and is
replayed by both the first and a second reconciliation. -/
theorem C1_counterexample :
    eControlled.getNetwork.map (fun n => n.lastProcessedInput) = some 5 ∧
    sysC1.pendingInputs = [(0, input0)] ∧
    NetworkSyncSystem.reconcileReplays sysC1 ssC1 = [0] ∧
    (NetworkSyncSystem.reconcile sysC1 ssC1).pendingInputs = [(0, input0)] ∧
    NetworkSyncSystem.reconcileReplays (NetworkSyncSystem.reconcile sysC1 ssC1) ssC1 =
      [0] := by
  refine ⟨rfl, rfl, ?_, ?_, ?_⟩ <;> decide

/-- C1 amended: reconcile never prunes the Pending-Input Log — the log is
unchanged by every reconcile call, and a reconciliation either replays
nothing (guards fail) or replays every logged entry, acknowledged or not. -/
theorem C1_amended_no_pruning :
    ∀ (sys : NetworkSyncSystem) (ss : NetworkState),
      (NetworkSyncSystem.reconcile sys ss).pendingInputs = sys.pendingInputs ∧
      (NetworkSyncSystem.reconcileReplays sys ss = [] ∨
        NetworkSyncSystem.reconcileReplays sys ss = sys.pendingInputs.map Prod.fst) := by
  intro sys ss
  constructor
  · unfold NetworkSyncSystem.reconcile
    split
    · rfl
    · split
      · rfl
      · split
        · rfl
        · rfl
  · unfold NetworkSyncSystem.reconcileReplays
    split
    · exact Or.inl rfl
    · split
      · exact Or.inl rfl
      · split
        · exact Or.inl rfl
        · exact Or.inr rfl

/-- C4: with buffered snapshots at t = 100 (x = 0) and t = 200 (x = 10), a
tick at renderTime 150 (currentTime 250) interpolates the observed entity to
x = 5, and a tick at renderTime 250 (currentTime 350), past the buffer end,
changes nothing — whatever the external square root used for quaternion
normalization. -/
theorem C4_interpolation_midpoint_and_skip :
    ∀ sq : ℚ → ℚ,
      ((NetworkSyncSystem.interpolateState sq sysC4 eObserved 250).2.getTransform.map
        (fun t => t.position.x)) = some 5 ∧
      NetworkSyncSystem.interpolateState sq sysC4 eObserved 350 = (sysC4, eObserved) := by
  intro sq
  constructor
  · simp [NetworkSyncSystem.interpolateState, sysC4, eObserved, snap100, snap200,
      NetworkSyncSystem.INTERPOLATION_DELAY, NetworkSyncSystem.bracketIndex,
      NetworkSyncSystem.lerpVector3, Entity.getNetwork, Entity.getTransform,
      Entity.getPhysics, Entity.getComponent, Entity.setComponent, mkNetwork,
      idTransform, List.lookup]
    norm_num [List.lookup]
    rw [(by decide : ("TransformComponent" == "NetworkComponent") = false)]
    exact ⟨_, rfl, rfl⟩
  · simp [NetworkSyncSystem.interpolateState, sysC4, eObserved, snap100, snap200,
      NetworkSyncSystem.INTERPOLATION_DELAY, NetworkSyncSystem.bracketIndex,
      Entity.getNetwork, Entity.getTransform, Entity.getComponent, mkNetwork,
      idTransform, List.lookup]
    norm_num

/-- C5 counterexample: setPosition on a mapped STATIC entity is not a no-op —
it rewrites the Transform position and teleports the engine body. -/
theorem C5_counterexample :
    ((sysPhys.physicsObjects.lookup "s1").map (fun po => po.isStatic)) = some true ∧
    (eMappedStatic.getTransform.map (fun t => t.position)) = some ⟨0, 0, 0⟩ ∧
    ((PhysicsSystem.setPosition sysPhys eMappedStatic ⟨1, 2, 3⟩).2.getTransform.map
      (fun t => t.position)) = some ⟨1, 2, 3⟩ ∧
    (((PhysicsSystem.setPosition sysPhys eMappedStatic ⟨1, 2, 3⟩).1.physicsObjects.lookup
      "s1").map (fun po => po.body.translation)) = some ⟨1, 2, 3⟩ := by
  refine ⟨?_, ?_, ?_, ?_⟩ <;> decide

/-- C5 amended: setLinearVelocity and applyImpulse are no-ops on unmapped or
static-mapped entities; setPosition is a no-op on unmapped entities or when a
Transform or Physics component is missing (but not on mapped static ones). -/
theorem C5_amended_noop_scope :
    ∀ (imp : RigidBody → Vec3 → RigidBody) (sys : PhysicsSystemState) (e : Entity)
      (v : Vec3Opt) (j p : Vec3),
      (sys.physicsObjects.lookup e.id = none →
        PhysicsSystem.setLinearVelocity sys e v = sys ∧
        PhysicsSystem.applyImpulse imp sys e j = sys ∧
        PhysicsSystem.setPosition sys e p = (sys, e)) ∧
      (∀ po, sys.physicsObjects.lookup e.id = some po → po.isStatic = true →
        PhysicsSystem.setLinearVelocity sys e v = sys ∧
        PhysicsSystem.applyImpulse imp sys e j = sys) ∧
      ((e.getTransform = none ∨ e.getPhysics = none) →
        PhysicsSystem.setPosition sys e p = (sys, e)) := by
  intro imp sys e v j p
  refine ⟨?_, ?_, ?_⟩
  · intro h
    refine ⟨?_, ?_, ?_⟩
    · simp [PhysicsSystem.setLinearVelocity, h]
    · simp [PhysicsSystem.applyImpulse, h]
    · cases ht : e.getTransform <;> cases hp : e.getPhysics <;>
        simp [PhysicsSystem.setPosition, h, ht, hp]
  · intro po hpo hstat
    constructor
    · simp [PhysicsSystem.setLinearVelocity, hpo, hstat]
    · simp [PhysicsSystem.applyImpulse, hpo, hstat]
  · intro hor
    rcases hor with h | h
    · simp [PhysicsSystem.setPosition, h]
    · cases ht : e.getTransform <;> simp [PhysicsSystem.setPosition, h, ht]

/-- C5 witness: all three operations leave an empty bridge and an unmapped
entity untouched, and the velocity/impulse operations leave the static-mapped
fixture untouched. -/
theorem C5_witness :
    (PhysicsSystem.setLinearVelocity sysPhysEmpty eUnmapped ⟨some 1, none, none⟩ =
      sysPhysEmpty ∧
     PhysicsSystem.applyImpulse impulseId sysPhysEmpty eUnmapped ⟨1, 1, 1⟩ =
      sysPhysEmpty ∧
     PhysicsSystem.setPosition sysPhysEmpty eUnmapped ⟨1, 1, 1⟩ =
      (sysPhysEmpty, eUnmapped)) ∧
    (PhysicsSystem.setLinearVelocity sysPhys eMappedStatic ⟨some 1, none, none⟩ =
      sysPhys ∧
     PhysicsSystem.applyImpulse impulseId sysPhys eMappedStatic ⟨1, 1, 1⟩ = sysPhys) :=
  ⟨(C5_amended_noop_scope impulseId sysPhysEmpty eUnmapped ⟨some 1, none, none⟩
      ⟨1, 1, 1⟩ ⟨1, 1, 1⟩).1 rfl,
   (C5_amended_noop_scope impulseId sysPhys eMappedStatic ⟨some 1, none, none⟩
      ⟨1, 1, 1⟩ ⟨1, 1, 1⟩).2.1 poStatic (by decide) rfl⟩

/-- C8 counterexample: the serialize/deserialize round-trip on a Network
component does not reproduce authorityType — the target keeps its own. -/
theorem C8_counterexample :
    (netTgt.deserialize netSrc.serialize).authorityType ≠ netSrc.authorityType := by
  decide

/-- C8 amended: the round-trip reproduces every field exactly for Transform,
Physics and Render components (any same-kind target); for Network components
with every truthiness-guarded source field truthy it reproduces every field
except authorityType, which keeps the target's value. -/
theorem C8_amended_roundtrip :
    (∀ c t : TransformComponent, t.deserialize c.serialize = c) ∧
    (∀ c t : PhysicsComponent, t.deserialize c.serialize = c) ∧
    (∀ c t : RenderComponent, t.deserialize c.serialize = c) ∧
    (∀ c t : NetworkComponent,
      c.networkId ≠ "" → c.owner ≠ "" → c.lastUpdate ≠ 0 → c.lastProcessedInput ≠ 0 →
      c.lastInput.isSome = true → c.lastValidatedState.isSome = true →
      t.deserialize c.serialize = { c with authorityType := t.authorityType }) := by
  refine ⟨fun c t => rfl, fun c t => rfl, fun c t => rfl, ?_⟩
  intro c t h1 h2 h3 h4 h5 h6
  obtain ⟨i, hi⟩ := Option.isSome_iff_exists.mp h5
  obtain ⟨vs, hv⟩ := Option.isSome_iff_exists.mp h6
  simp [NetworkComponent.serialize, NetworkComponent.deserialize, h1, h2, h3, h4, hi, hv]

/-- C8 witness: the concrete Transform fixture round-trips exactly and the
concrete Network source round-trips into the target with only authorityType
kept from the target. -/
theorem C8_witness :
    idTransform.deserialize idTransform.serialize = idTransform ∧
    netTgt.deserialize netSrc.serialize =
      { netSrc with authorityType := netTgt.authorityType } :=
  ⟨C8_amended_roundtrip.1 idTransform idTransform,
   C8_amended_roundtrip.2.2.2 netSrc netTgt (by decide) (by decide) (by decide)
     (by decide) rfl rfl⟩

/-- Membership in the chronological insert: the new snapshot or an old one. -/
theorem mem_insertChron {l : List NetworkState} {s a : NetworkState}
    (h : a ∈ NetworkSyncSystem.insertChron l s) : a = s ∨ a ∈ l := by
  induction l with
  | nil =>
    simp [NetworkSyncSystem.insertChron] at h
    exact Or.inl h
  | cons x xs ih =>
    simp only [NetworkSyncSystem.insertChron] at h
    by_cases hc : s.timestamp < x.timestamp
    · rw [if_pos hc] at h
      rcases List.mem_cons.mp h with h1 | h2
      · exact Or.inl h1
      · exact Or.inr h2
    · rw [if_neg hc] at h
      rcases List.mem_cons.mp h with h1 | h2
      · exact Or.inr (h1 ▸ List.mem_cons_self x xs)
      · rcases ih h2 with h3 | h4
        · exact Or.inl h3
        · exact Or.inr (List.mem_cons_of_mem x h4)

/-- The chronological insert preserves non-decreasing timestamp order. -/
theorem pairwise_insertChron {l : List NetworkState} {s : NetworkState}
    (h : l.Pairwise (fun a b => a.timestamp ≤ b.timestamp)) :
    (NetworkSyncSystem.insertChron l s).Pairwise
      (fun a b => a.timestamp ≤ b.timestamp) := by
  induction l with
  | nil => simp [NetworkSyncSystem.insertChron]
  | cons x xs ih =>
    rw [List.pairwise_cons] at h
    obtain ⟨hx, hxs⟩ := h
    simp only [NetworkSyncSystem.insertChron]
    by_cases hc : s.timestamp < x.timestamp
    · rw [if_pos hc]
      refine List.Pairwise.cons ?_ (List.Pairwise.cons hx hxs)
      intro b hb
      rcases List.mem_cons.mp hb with rfl | hbxs
      · exact le_of_lt hc
      · exact le_trans (le_of_lt hc) (hx b hbxs)
    · rw [if_neg hc]
      refine List.Pairwise.cons ?_ (ih hxs)
      intro b hb
      rcases mem_insertChron hb with rfl | hbxs
      · exact le_of_not_lt hc
      · exact hx b hbxs

/-- Trimming keeps the order (it drops a prefix). -/
theorem pairwise_trimBuffer {l : List NetworkState}
    (h : l.Pairwise (fun a b => a.timestamp ≤ b.timestamp)) :
    (NetworkSyncSystem.trimBuffer l).Pairwise
      (fun a b => a.timestamp ≤ b.timestamp) :=
  List.Pairwise.sublist (List.drop_sublist _ _) h

/-- Trimming bounds the length by BUFFER_SIZE. -/
theorem length_trimBuffer (l : List NetworkState) :
    (NetworkSyncSystem.trimBuffer l).length ≤ NetworkSyncSystem.BUFFER_SIZE := by
  simp only [NetworkSyncSystem.trimBuffer, NetworkSyncSystem.BUFFER_SIZE, List.length_drop]
  omega

/-- Trimming evicts from the front only: the result is a suffix. -/
theorem trimBuffer_suffix (l : List NetworkState) :
    (NetworkSyncSystem.trimBuffer l).IsSuffix l :=
  List.drop_suffix _ _

/-- A successful association-list lookup is a member. -/
theorem lookup_mem {β : Type} {m : List (String × β)} {k : String} {v : β}
    (h : m.lookup k = some v) : (k, v) ∈ m := by
  induction m with
  | nil => simp [List.lookup] at h
  | cons p rest ih =>
    obtain ⟨a, b⟩ := p
    by_cases hk : k = a
    · subst hk
      simp [List.lookup] at h
      subst h
      exact List.mem_cons_self _ _
    · have hne : (k == a) = false := beq_eq_false_iff_ne.mpr hk
      rw [List.lookup, hne] at h
      exact List.mem_cons_of_mem _ (ih h)

/-- A member of the JS Map.set result is the inserted pair or an old member. -/
theorem mem_mapSet {β : Type} {m : List (String × β)} {k : String} {v : β}
    {q : String × β} (h : q ∈ mapSet m k v) : q = (k, v) ∨ q ∈ m := by
  unfold mapSet at h
  by_cases hl : (m.lookup k).isSome
  · rw [if_pos hl] at h
    obtain ⟨p, hp, hq⟩ := List.mem_map.mp h
    by_cases hpk : p.1 = k
    · rw [if_pos hpk] at hq
      exact Or.inl hq.symm
    · rw [if_neg hpk] at hq
      exact Or.inr (hq ▸ hp)
  · rw [if_neg hl] at h
    rcases List.mem_append.mp h with h1 | h2
    · exact Or.inr h1
    · simp at h2
      exact Or.inl h2

/-- C9: if every per-networkId buffer is sorted by non-decreasing timestamp
with at most BUFFER_SIZE = 32 entries, then after applySnapshot every buffer
still is; after the server-side capture in update it still is, provided the
capture clock is at least every timestamp already buffered for that id
(Date.now is monotone and capture buffers only ever receive captures); and the
trim always evicts from the front, i.e. the oldest entries first. -/
theorem C9_buffer_invariant :
    ∀ (sys : NetworkSyncSystem) (snapshot : NetworkState) (nid : String),
      (∀ kb ∈ sys.stateBuffers, BufferWF kb.2) →
      ((∀ kb ∈ (NetworkSyncSystem.applySnapshot sys snapshot).stateBuffers,
          BufferWF kb.2) ∧
       ((∀ s ∈ ((sys.stateBuffers.lookup nid).getD
            { states := [], lastProcessedTime := 0 }).states,
            s.timestamp ≤ snapshot.timestamp) →
          ∀ kb ∈ (NetworkSyncSystem.captureSnapshot sys nid snapshot).stateBuffers,
            BufferWF kb.2) ∧
       (∀ l : List NetworkState, (NetworkSyncSystem.trimBuffer l).IsSuffix l)) := by
  intro sys snapshot nid hwf
  have hbufWF : ∀ key : String,
      BufferWF ((sys.stateBuffers.lookup key).getD
        { states := [], lastProcessedTime := 0 }) := by
    intro key
    cases hk : sys.stateBuffers.lookup key with
    | none => exact ⟨List.Pairwise.nil, by simp [NetworkSyncSystem.BUFFER_SIZE]⟩
    | some b => exact hwf (key, b) (lookup_mem hk)
  refine ⟨?_, ?_, fun l => trimBuffer_suffix l⟩
  · unfold NetworkSyncSystem.applySnapshot
    split
    · exact hwf
    · split
      · exact hwf
      · split
        · exact hwf
        · intro kb hkb
          rcases mem_mapSet hkb with heq | hold
          · rw [heq]
            exact ⟨pairwise_trimBuffer (pairwise_insertChron (hbufWF _).1),
                   length_trimBuffer _⟩
          · exact hwf _ hold
  · intro hts
    unfold NetworkSyncSystem.captureSnapshot
    intro kb hkb
    rcases mem_mapSet hkb with heq | hold
    · rw [heq]
      refine ⟨pairwise_trimBuffer ?_, length_trimBuffer _⟩
      refine List.pairwise_append.mpr ⟨(hbufWF nid).1, List.pairwise_singleton _ _, ?_⟩
      intro a ha b hb
      rw [List.mem_singleton.mp hb]
      exact hts a ha
    · exact hwf _ hold

/-- C9 witness: applying a snapshot and capturing a snapshot on the concrete
one-snapshot fixture leave its buffer sorted and within bounds. -/
theorem C9_witness :
    BufferWF (((NetworkSyncSystem.applySnapshot sysC9 snap200).stateBuffers.lookup
      "p2").getD { states := [], lastProcessedTime := 0 }) ∧
    BufferWF (((NetworkSyncSystem.captureSnapshot sysC9 "p2" snap200).stateBuffers.lookup
      "p2").getD { states := [], lastProcessedTime := 0 }) :=
  ⟨(C9_buffer_invariant sysC9 snap200 "p2" (by decide)).1
      ("p2", { states := [snap100, snap200], lastProcessedTime := 0 }) (by decide),
   (C9_buffer_invariant sysC9 snap200 "p2" (by decide)).2.1 (by decide)
      ("p2", { states := [snap100, snap200], lastProcessedTime := 0 }) (by decide)⟩

end ECS
